import Mathlib

/-!
Verification of `cad/bushing.py` (Parametric-Labelled-Bushings-CAD).

The Python source builds a labelled bushing as a tree of build123d solid
operations.  We embed the source shallowly:

* `BushingSpec` mirrors the dataclass (floats become `ℚ`, the Python ints
  become `ℤ`, labels are `String`).
* `BushingSpec.postInit` mirrors `__post_init__`'s two asserts as an
  `Except` value carrying the offending field values.
* Solids are represented syntactically by the free algebra `Shape` of the
  build123d constructors and operators the source uses (`Cylinder`, `Cone`,
  `Box`, 2D `Text` extruded on `Plane.XZ`, `rotate`, `translate`, `+`/union,
  `-`/difference).  `make_bushing` translates the source line by line into
  this algebra.
* Rendered text metrics come from the external font engine, so the width and
  height of a rendered string at a font size are abstract parameters
  (`tw`, `th : String → ℚ → ℚ`); translating a 2D shape does not change its
  bounding-box size, so the width of a translated `Text` ignores its offset.
-/

set_option autoImplicit false

namespace Bushing

/-- build123d `Align` values used by the source. -/
inductive Align where
  | MIN
  | CENTER
  | MAX
deriving DecidableEq, Repr

/-- build123d axes used by the source (`bd.Axis.Y`, `bd.Axis.Z`). -/
inductive Axis where
  | X
  | Y
  | Z
deriving DecidableEq, Repr

/-- A point / translation vector in 3D, with exact rational coordinates. -/
structure Vec3 where
  x : ℚ
  y : ℚ
  z : ℚ
deriving DecidableEq, Repr

/-- A 2D `bd.Text` object: the string, the font size, the 2D alignment pair
passed to `bd.Text`, and the accumulated 2D translation offsets. -/
structure Text2D where
  text : String
  font_size : ℚ
  alignX : Align
  alignY : Align
  dx : ℚ
  dy : ℚ
deriving DecidableEq, Repr

/-- `bd.Text(text, font_size=..., align=(ax, ay))`: a fresh text outline has
zero offset. -/
def Text2D.make (text : String) (font_size : ℚ) (ax ay : Align) : Text2D :=
  { text := text, font_size := font_size, alignX := ax, alignY := ay
    dx := 0, dy := 0 }

/-- `.translate((a, b))` on a 2D shape adds to the accumulated offset. -/
def Text2D.translate (t : Text2D) (d : ℚ × ℚ) : Text2D :=
  { t with dx := t.dx + d.1, dy := t.dy + d.2 }

/-- `text_2d.bounding_box().size.X`: the rendered width of the string at the
font size, supplied by the abstract metric `tw`.  Translation and alignment
move a bounding box but do not change its size, so neither appears here. -/
def Text2D.bboxWidth (tw : String → ℚ → ℚ) (t : Text2D) : ℚ :=
  tw t.text t.font_size

/-- The free algebra of the build123d solids and operators used by
`make_bushing`.  `extrudeTextXZ t a` is `bd.extrude(bd.Plane.XZ * t, amount=a)`
(the source only ever extrudes sketches placed on `Plane.XZ`). -/
inductive Shape where
  | empty : Shape
  | cylinder (radius height : ℚ) (al : Align × Align × Align) : Shape
  | cone (top_radius bottom_radius height : ℚ) (al : Align × Align × Align) : Shape
  | box (length width height : ℚ) (al : Align × Align × Align) : Shape
  | extrudeTextXZ (t : Text2D) (amount : ℚ) : Shape
  | rotate (s : Shape) (ax : Axis) (angle : ℚ) : Shape
  | translate (s : Shape) (v : Vec3) : Shape
  | union (a b : Shape) : Shape
  | diff (a b : Shape) : Shape
deriving DecidableEq, Repr

/-- The `BushingSpec` dataclass, with its field defaults recorded in
`BushingSpec.withDefaults` below (floats as exact rationals). -/
structure BushingSpec where
  bushing_id : ℚ
  bushing_od : ℚ
  bushing_length : ℚ
  bushing_each_time : ℤ
  flag_thickness : ℚ
  flag_length : ℚ
  flag_height : ℚ
  text_font_size : ℚ
  text_thickness : ℚ
  flag_stem_length_radial : ℚ
  flag_stem_od : ℚ
  text_top : String
  text_bottom : String
deriving DecidableEq, Repr

/-- The dataclass defaults: `bushing_id = 3.2`, `bushing_od = 6.4`,
`bushing_each_time = 4`, `flag_thickness = 2.8`, `flag_length = 15`,
`flag_height = 12`, `text_font_size = 5`, `text_thickness = 1`,
`flag_stem_length_radial = 4`, `flag_stem_od = 3.5`, empty labels.
`bushing_length` has no default and must be supplied. -/
def BushingSpec.withDefaults (bushing_length : ℚ) : BushingSpec :=
  { bushing_id := 16 / 5
    bushing_od := 32 / 5
    bushing_length := bushing_length
    bushing_each_time := 4
    flag_thickness := 14 / 5
    flag_length := 15
    flag_height := 12
    text_font_size := 5
    text_thickness := 1
    flag_stem_length_radial := 4
    flag_stem_od := 7 / 2
    text_top := ""
    text_bottom := "" }

/-- The two assert failures of `__post_init__`, each carrying the offending
field values that the f-string messages interpolate. -/
inductive ConfigurationError where
  | od_not_gt_id (bushing_od bushing_id : ℚ)
  | stem_od_not_lt_od (flag_stem_od bushing_od : ℚ)
deriving DecidableEq, Repr

/-- `__post_init__`: assert `bushing_od > bushing_id`, then assert
`flag_stem_od < bushing_od`; on success the constructed spec is returned
unchanged, otherwise the corresponding assertion error is raised. -/
def BushingSpec.postInit (s : BushingSpec) : Except ConfigurationError BushingSpec :=
  if s.bushing_od > s.bushing_id then
    if s.flag_stem_od < s.bushing_od then
      Except.ok s
    else
      Except.error (ConfigurationError.stem_od_not_lt_od s.flag_stem_od s.bushing_od)
  else
    Except.error (ConfigurationError.od_not_gt_id s.bushing_od s.bushing_id)

/-- Both numeric invariants of `__post_init__` as a predicate. -/
def BushingSpec.valid (s : BushingSpec) : Prop :=
  s.bushing_od > s.bushing_id ∧ s.flag_stem_od < s.bushing_od

instance (s : BushingSpec) : Decidable s.valid := by
  unfold BushingSpec.valid; infer_instance

/-- Lines 57-62 of `make_bushing`: choose the effective label strings.
If `len(text_top) <= len(text_bottom)` the top string gets the connector
appended, otherwise the bottom string gets it prepended. -/
def labelLayout (text_top text_bottom : String) : String × String :=
  if text_top.length ≤ text_bottom.length then
    (text_top ++ " to", text_bottom)
  else
    (text_top, "to " ++ text_bottom)

/-- The alignment tuple `(bd.Align.CENTER, bd.Align.CENTER, bd.Align.MIN)`
passed to both cylinders and to the cone. -/
def alignCCMin : Align × Align × Align := (Align.CENTER, Align.CENTER, Align.MIN)

/-- Lines 64-68: `bd.Text(text_top, font_size=..., align=(CENTER, MIN))
.translate((0, 0.6))` where `text_top` is the effective top label. -/
def text_2d_top (s : BushingSpec) : Text2D :=
  (Text2D.make (labelLayout s.text_top s.text_bottom).1 s.text_font_size
    Align.CENTER Align.MIN).translate (0, 3 / 5)

/-- Lines 69-73: `bd.Text(text_bottom, font_size=..., align=(CENTER, MAX))
.translate((0, -0.6))` where `text_bottom` is the effective bottom label. -/
def text_2d_bottom (s : BushingSpec) : Text2D :=
  (Text2D.make (labelLayout s.text_top s.text_bottom).2 s.text_font_size
    Align.CENTER Align.MAX).translate (0, -(3 / 5))

/-- Lines 75-77: `max_text_width = max(text_2d_top.bounding_box().size.X,
text_2d_bottom.bounding_box().size.X)`. -/
def max_text_width (tw : String → ℚ → ℚ) (s : BushingSpec) : ℚ :=
  max ((text_2d_top s).bboxWidth tw) ((text_2d_bottom s).bboxWidth tw)

/-- Line 79: `flag_length = max_text_width + 2` (the local variable that
shadows the spec field of the same name). -/
def flag_length_used (tw : String → ℚ → ℚ) (s : BushingSpec) : ℚ :=
  max_text_width tw s + 2

/-- Lines 49-54: the sleeve,
`bd.Cylinder(radius=bushing_od / 2, height=bushing_length, align=(CENTER,
CENTER, MIN))`. -/
def sleeve_solid (s : BushingSpec) : Shape :=
  Shape.cylinder (s.bushing_od / 2) s.bushing_length alignCCMin

/-- Lines 82-101: the flag stem,
`bd.Cone(top_radius=flag_thickness / 2, bottom_radius=min(bushing_od / 2,
bushing_length / 2), height=flag_stem_length_radial + bushing_od / 2,
align=(CENTER, CENTER, MIN)).rotate(bd.Axis.Y, 90)
.translate((0, 0, min(bushing_length / 2, flag_height / 2)))`. -/
def stem_solid (s : BushingSpec) : Shape :=
  Shape.translate
    (Shape.rotate
      (Shape.cone (s.flag_thickness / 2)
        (min (s.bushing_od / 2) (s.bushing_length / 2))
        (s.flag_stem_length_radial + s.bushing_od / 2)
        alignCCMin)
      Axis.Y 90)
    ⟨0, 0, min (s.bushing_length / 2) (s.flag_height / 2)⟩

/-- Lines 104-117: the flag body,
`bd.Box(flag_length, flag_thickness, flag_height, align=(MIN, CENTER, MIN))
.translate((flag_stem_length_radial + bushing_od / 2, 0, 0))`. -/
def flag_body_box (tw : String → ℚ → ℚ) (s : BushingSpec) : Shape :=
  Shape.translate
    (Shape.box (flag_length_used tw s) s.flag_thickness s.flag_height
      (Align.MIN, Align.CENTER, Align.MIN))
    ⟨s.flag_stem_length_radial + s.bushing_od / 2, 0, 0⟩

/-- Center coordinate along one axis of a box of extent `len` under a
build123d 1D alignment: `MIN` places the solid on `[0, len]` along the axis,
`CENTER` on `[-len/2, len/2]`, `MAX` on `[-len, 0]`. -/
def alignCenter : Align → ℚ → ℚ
  | Align.MIN, len => len / 2
  | Align.CENTER, _ => 0
  | Align.MAX, len => -(len / 2)

/-- `flag_body_box.center().X`: the box is `MIN`-aligned over
`[0, flag_length]` in x and then translated by
`flag_stem_length_radial + bushing_od / 2`. -/
def flag_body_center_x (tw : String → ℚ → ℚ) (s : BushingSpec) : ℚ :=
  alignCenter Align.MIN (flag_length_used tw s)
    + (s.flag_stem_length_radial + s.bushing_od / 2)

/-- `flag_body_box.center().Z`: the box is `MIN`-aligned over
`[0, flag_height]` in z and its translation has zero z component. -/
def flag_body_center_z (s : BushingSpec) : ℚ :=
  alignCenter Align.MIN s.flag_height + 0

/-- Lines 120-128 (front side, loop iteration for `text_2d_top`):
`bd.Plane.XZ * text_2d_top.translate((flag_body_box.center().X,
flag_body_box.center().Z))`. -/
def text_sketch_top_front (tw : String → ℚ → ℚ) (s : BushingSpec) : Text2D :=
  (text_2d_top s).translate (flag_body_center_x tw s, flag_body_center_z s)

/-- Lines 120-128 (front side, loop iteration for `text_2d_bottom`). -/
def text_sketch_bottom_front (tw : String → ℚ → ℚ) (s : BushingSpec) : Text2D :=
  (text_2d_bottom s).translate (flag_body_center_x tw s, flag_body_center_z s)

/-- Lines 131-139 (back side, loop iteration for `text_2d_top`): the same
sketch but translated to `(-flag_body_box.center().X,
flag_body_box.center().Z)`. -/
def text_sketch_top_back (tw : String → ℚ → ℚ) (s : BushingSpec) : Text2D :=
  (text_2d_top s).translate (-flag_body_center_x tw s, flag_body_center_z s)

/-- Lines 131-139 (back side, loop iteration for `text_2d_bottom`). -/
def text_sketch_bottom_back (tw : String → ℚ → ℚ) (s : BushingSpec) : Text2D :=
  (text_2d_bottom s).translate (-flag_body_center_x tw s, flag_body_center_z s)

/-- The extrusion amount of every text relief:
`text_thickness + flag_thickness / 2`. -/
def relief_amount (s : BushingSpec) : ℚ :=
  s.text_thickness + s.flag_thickness / 2

/-- Lines 125-128: a front-side text relief,
`bd.extrude(text_sketch, amount=text_thickness + flag_thickness / 2)`. -/
def relief_front (s : BushingSpec) (t : Text2D) : Shape :=
  Shape.extrudeTextXZ t (relief_amount s)

/-- Lines 136-139: a back-side text relief, the same extrusion additionally
`.rotate(axis=bd.Axis.Z, angle=180)`. -/
def relief_back (s : BushingSpec) (t : Text2D) : Shape :=
  Shape.rotate (Shape.extrudeTextXZ t (relief_amount s)) Axis.Z 180

/-- Lines 141-145: the bore,
`bd.Cylinder(radius=bushing_id / 2, height=bushing_length, align=(CENTER,
CENTER, MIN))`, subtracted from the part. -/
def bore_solid (s : BushingSpec) : Shape :=
  Shape.cylinder (s.bushing_id / 2) s.bushing_length alignCCMin

/-- `make_bushing(base_spec)`, lines 47-147, translated step by step:
start from `bd.Part(None)`, union the sleeve, the stem and the flag body,
union the four text reliefs (top/front, bottom/front, top/back, bottom/back —
the order of the two `for` loops), and finally subtract the bore.
`tw` is the abstract rendered-width metric used for `bounding_box().size.X`. -/
def make_bushing (tw : String → ℚ → ℚ) (base_spec : BushingSpec) : Shape :=
  let p := Shape.empty
  let p := p.union (sleeve_solid base_spec)
  let p := p.union (stem_solid base_spec)
  let p := p.union (flag_body_box tw base_spec)
  let p := p.union (relief_front base_spec (text_sketch_top_front tw base_spec))
  let p := p.union (relief_front base_spec (text_sketch_bottom_front tw base_spec))
  let p := p.union (relief_back base_spec (text_sketch_top_back tw base_spec))
  let p := p.union (relief_back base_spec (text_sketch_bottom_back tw base_spec))
  let p := p.diff (bore_solid base_spec)
  p

/-- Constructing the spec and then building the part: `__post_init__` runs at
`BushingSpec(...)` construction time, before `make_bushing` is called, so a
failed invariant yields an error and no geometry. -/
def build_part (tw : String → ℚ → ℚ) (s : BushingSpec) :
    Except ConfigurationError Shape :=
  s.postInit.map (make_bushing tw)

/-- One loop iteration of `make_many_bushings`, lines 171-173, as a pure
function of the index and the spec:
`make_bushing(spec).translate((0, i * spec.bushing_od + 5, 0))`. -/
def part_at (tw : String → ℚ → ℚ) (i : ℕ) (s : BushingSpec) : Shape :=
  Shape.translate (make_bushing tw s) ⟨0, (i : ℚ) * s.bushing_od + 5, 0⟩

/-- The `for i, bushing_overrides in enumerate(bushing_list)` loop of
`make_many_bushings`, collecting the parts it builds in order; the index
argument threads `enumerate`'s counter. -/
def make_many_loop (tw : String → ℚ → ℚ) : ℕ → List BushingSpec → List Shape
  | _, [] => []
  | i, s :: rest =>
      Shape.translate (make_bushing tw s) ⟨0, (i : ℚ) * s.bushing_od + 5, 0⟩
        :: make_many_loop tw (i + 1) rest

/-- `make_many_bushings` restricted to its geometry: the list of parts built
from a list of (already constructed) specs, starting at index 0. -/
def make_many_bushings (tw : String → ℚ → ℚ) (specs : List BushingSpec) :
    List Shape :=
  make_many_loop tw 0 specs

/-! ### Semantics of the transforms applied to the stem cone and the text
outlines, used to locate the cone's two ends and the outlines' vertical
extents in world coordinates. -/

/-- Componentwise vector addition. -/
def Vec3.add (a b : Vec3) : Vec3 :=
  ⟨a.x + b.x, a.y + b.y, a.z + b.z⟩

/-- The action of `.rotate(bd.Axis.Y, 90)` on a point (right-hand rule,
rotation matrix about y at 90 degrees): `(x, y, z) ↦ (z, y, -x)`. -/
def rotY90 (v : Vec3) : Vec3 :=
  ⟨v.z, v.y, -v.x⟩

/-- The cone's height parameter in `stem_solid`:
`flag_stem_length_radial + bushing_od / 2`. -/
def stem_height (s : BushingSpec) : ℚ :=
  s.flag_stem_length_radial + s.bushing_od / 2

/-- The translation applied to the stem after the rotation. -/
def stem_translation (s : BushingSpec) : Vec3 :=
  ⟨0, 0, min (s.bushing_length / 2) (s.flag_height / 2)⟩

/-- Local center of the cone's bottom (base) face: a `bd.Cone` with align
`(CENTER, CENTER, MIN)` spans `[0, height]` along its own z axis, with the
`bottom_radius` face at the origin. -/
def cone_base_center_local : Vec3 :=
  ⟨0, 0, 0⟩

/-- Local center of the cone's top face (the `top_radius` face), at
`z = height`. -/
def cone_top_center_local (height : ℚ) : Vec3 :=
  ⟨0, 0, height⟩

/-- World position of the center of the stem cone's base (`bottom_radius`)
face after the rotation and translation of `stem_solid`. -/
def stem_base_center_world (s : BushingSpec) : Vec3 :=
  (rotY90 cone_base_center_local).add (stem_translation s)

/-- World position of the center of the stem cone's top (`top_radius`) face
after the rotation and translation of `stem_solid`. -/
def stem_top_center_world (s : BushingSpec) : Vec3 :=
  (rotY90 (cone_top_center_local (stem_height s))).add (stem_translation s)

/-- Squared radial distance of a point from the sleeve's axis (the z axis). -/
def radial_sq (v : Vec3) : ℚ :=
  v.x ^ 2 + v.y ^ 2

/-- The radius of the stem cone at whichever of its two end faces lies
radially farther from the sleeve axis (ties resolved to the base). -/
def stem_far_radius (s : BushingSpec) : ℚ :=
  if radial_sq (stem_base_center_world s) < radial_sq (stem_top_center_world s) then
    s.flag_thickness / 2
  else
    min (s.bushing_od / 2) (s.bushing_length / 2)

/-- The radius of the stem cone at whichever of its two end faces lies
radially nearer to the sleeve axis (ties resolved to the top). -/
def stem_near_radius (s : BushingSpec) : ℚ :=
  if radial_sq (stem_base_center_world s) < radial_sq (stem_top_center_world s) then
    min (s.bushing_od / 2) (s.bushing_length / 2)
  else
    s.flag_thickness / 2

/-- Offset of the lower edge of a bounding box of vertical extent `h` under a
build123d 1D alignment (`MIN` spans `[0, h]`, `CENTER` spans `[-h/2, h/2]`,
`MAX` spans `[-h, 0]`). -/
def alignLo : Align → ℚ → ℚ
  | Align.MIN, _ => 0
  | Align.CENTER, h => -(h / 2)
  | Align.MAX, h => -h

/-- Offset of the upper edge of a bounding box of vertical extent `h` under a
build123d 1D alignment. -/
def alignHi : Align → ℚ → ℚ
  | Align.MIN, h => h
  | Align.CENTER, h => h / 2
  | Align.MAX, _ => 0

/-- Lower vertical edge of a 2D text outline, given the abstract rendered
height metric `th` (on `Plane.XZ` the sketch's local y axis is the world z
axis, the flag's height direction). -/
def Text2D.yLo (th : String → ℚ → ℚ) (t : Text2D) : ℚ :=
  alignLo t.alignY (th t.text t.font_size) + t.dy

/-- Upper vertical edge of a 2D text outline, given the abstract rendered
height metric `th`. -/
def Text2D.yHi (th : String → ℚ → ℚ) (t : Text2D) : ℚ :=
  alignHi t.alignY (th t.text t.font_size) + t.dy

/-! ### Theorems -/

/-- Appending the connector changes the string: lengths differ by 3. -/
theorem append_connector_ne (t : String) : t ++ " to" ≠ t := by
  intro h
  have h2 := congrArg String.length h
  rw [String.length_append, show (" to" : String).length = 3 from rfl] at h2
  omega

/-- Prepending the connector changes the string: lengths differ by 3. -/
theorem connector_append_ne (b : String) : "to " ++ b ≠ b := by
  intro h
  have h2 := congrArg String.length h
  rw [String.length_append, show ("to " : String).length = 3 from rfl] at h2
  omega

/-- C1: the label layout step of `make_bushing` is a total function of the raw
string lengths: when `len(text_top) <= len(text_bottom)` the result is
`(text_top ++ " to", text_bottom)`, otherwise `(text_top, "to " ++
text_bottom)`; exactly one of the two strings is modified, and on a length
tie the connector goes to the top string. -/
theorem C1_label_layout (top bottom : String) :
    (top.length ≤ bottom.length → labelLayout top bottom = (top ++ " to", bottom)) ∧
    (¬ top.length ≤ bottom.length → labelLayout top bottom = (top, "to " ++ bottom)) ∧
    (((labelLayout top bottom).1 ≠ top ∧ (labelLayout top bottom).2 = bottom) ∨
      ((labelLayout top bottom).1 = top ∧ (labelLayout top bottom).2 ≠ bottom)) ∧
    (top.length = bottom.length → labelLayout top bottom = (top ++ " to", bottom)) := by
  by_cases h : top.length ≤ bottom.length
  · refine ⟨fun _ => by simp [labelLayout, h], fun hc => absurd h hc, ?_, fun _ => by simp [labelLayout, h]⟩
    exact Or.inl (by simp [labelLayout, h, append_connector_ne])
  · refine ⟨fun hc => absurd hc h, fun _ => by simp [labelLayout, h], ?_, fun he => absurd he.le h⟩
    exact Or.inr (by simp [labelLayout, h, connector_append_ne])

/-- Witness for C1 at the spec's three worked examples: `("A", "BB")`,
the tie `("AA", "BB")`, and `("AAA", "B")`. -/
theorem C1_label_layout_witness :
    labelLayout "A" "BB" = ("A to", "BB") ∧
    labelLayout "AA" "BB" = ("AA to", "BB") ∧
    labelLayout "AAA" "B" = ("AAA", "to B") := by
  refine ⟨?_, ?_, ?_⟩
  · have h := (C1_label_layout "A" "BB").1 (by decide)
    exact h.trans (by decide)
  · have h := (C1_label_layout "AA" "BB").2.2.2 (by decide)
    exact h.trans (by decide)
  · have h := (C1_label_layout "AAA" "B").2.1 (by decide)
    exact h.trans (by decide)

/-- C10: with both labels empty (the dataclass defaults) the tie-break branch
fires, so the effective top text is the literal `" to"` and the effective
bottom text is empty, and all four text-relief sketches of `make_bushing`
(front and back faces) carry those strings — never a blank flag. -/
theorem C10_default_labels (tw : String → ℚ → ℚ) (s : BushingSpec)
    (h1 : s.text_top = "") (h2 : s.text_bottom = "") :
    labelLayout s.text_top s.text_bottom = (" to", "") ∧
    (text_sketch_top_front tw s).text = " to" ∧
    (text_sketch_top_back tw s).text = " to" ∧
    (text_sketch_bottom_front tw s).text = "" ∧
    (text_sketch_bottom_back tw s).text = "" := by
  rw [h1, h2]
  refine ⟨by decide, ?_, ?_, ?_, ?_⟩ <;>
    simp [text_sketch_top_front, text_sketch_top_back, text_sketch_bottom_front,
      text_sketch_bottom_back, text_2d_top, text_2d_bottom, Text2D.make,
      Text2D.translate, labelLayout, h1, h2]

/-- Witness for C10 at the default spec (empty labels) with a concrete
width metric. -/
theorem C10_default_labels_witness :
    labelLayout (BushingSpec.withDefaults 20).text_top
        (BushingSpec.withDefaults 20).text_bottom = (" to", "") ∧
    (text_sketch_top_front (fun _ _ => 0) (BushingSpec.withDefaults 20)).text = " to" ∧
    (text_sketch_top_back (fun _ _ => 0) (BushingSpec.withDefaults 20)).text = " to" ∧
    (text_sketch_bottom_front (fun _ _ => 0) (BushingSpec.withDefaults 20)).text = "" ∧
    (text_sketch_bottom_back (fun _ _ => 0) (BushingSpec.withDefaults 20)).text = "" :=
  C10_default_labels (fun _ _ => 0) (BushingSpec.withDefaults 20) rfl rfl

/-- C3: `BushingSpec` construction succeeds with every field as given iff
`bushing_od > bushing_id` and `flag_stem_od < bushing_od`; otherwise it fails
with an error carrying the offending field values, and the failed pipeline
produces an error before any geometry is built. -/
theorem C3_post_init (s : BushingSpec) :
    (s.postInit = Except.ok s ↔ s.valid) ∧
    (∀ r, s.postInit = Except.ok r → r = s) ∧
    (¬ s.valid →
      (s.postInit = Except.error
          (ConfigurationError.od_not_gt_id s.bushing_od s.bushing_id) ∨
        s.postInit = Except.error
          (ConfigurationError.stem_od_not_lt_od s.flag_stem_od s.bushing_od)) ∧
      ∀ tw, ∃ e, build_part tw s = Except.error e) := by
  by_cases h1 : s.bushing_od > s.bushing_id
  · by_cases h2 : s.flag_stem_od < s.bushing_od
    · refine ⟨?_, ?_, ?_⟩
      · simp [BushingSpec.postInit, BushingSpec.valid, h1, h2]
      · intro r hr
        simp [BushingSpec.postInit, h1, h2] at hr
        exact hr.symm
      · intro hv
        exact absurd ⟨h1, h2⟩ hv
    · refine ⟨?_, ?_, ?_⟩
      · simp [BushingSpec.postInit, BushingSpec.valid, h1, h2]
      · intro r hr
        simp [BushingSpec.postInit, h1, h2] at hr
      · intro _
        have hp : s.postInit = Except.error
            (ConfigurationError.stem_od_not_lt_od s.flag_stem_od s.bushing_od) := by
          simp [BushingSpec.postInit, h1, h2]
        refine ⟨Or.inr hp, fun tw => ?_⟩
        exact ⟨ConfigurationError.stem_od_not_lt_od s.flag_stem_od s.bushing_od,
          by simp [build_part, hp, Except.map]⟩
  · refine ⟨?_, ?_, ?_⟩
    · simp [BushingSpec.postInit, BushingSpec.valid, h1]
    · intro r hr
      simp [BushingSpec.postInit, h1] at hr
    · intro _
      have hp : s.postInit = Except.error
          (ConfigurationError.od_not_gt_id s.bushing_od s.bushing_id) := by
        simp [BushingSpec.postInit, h1]
      refine ⟨Or.inl hp, fun tw => ?_⟩
      exact ⟨ConfigurationError.od_not_gt_id s.bushing_od s.bushing_id,
        by simp [build_part, hp, Except.map]⟩

/-- A concrete valid spec with whole-number dimensions (so that the kernel
can evaluate every comparison), used by the witnesses. -/
def specW : BushingSpec :=
  { bushing_id := 3
    bushing_od := 6
    bushing_length := 20
    bushing_each_time := 4
    flag_thickness := 2
    flag_length := 15
    flag_height := 12
    text_font_size := 5
    text_thickness := 1
    flag_stem_length_radial := 4
    flag_stem_od := 3
    text_top := ""
    text_bottom := "" }

/-- A spec violating the first invariant (`bushing_id` raised above
`bushing_od`), used to exhibit the failure branch of `__post_init__`. -/
def invalidSpec : BushingSpec :=
  { specW with bushing_id := 10 }

/-- Witness for C3: a valid spec passes `__post_init__` unchanged, and
`invalidSpec` is rejected before any geometry is built. -/
theorem C3_post_init_witness :
    specW.postInit = Except.ok specW ∧
    (invalidSpec.postInit = Except.error
        (ConfigurationError.od_not_gt_id invalidSpec.bushing_od invalidSpec.bushing_id) ∨
      invalidSpec.postInit = Except.error
        (ConfigurationError.stem_od_not_lt_od invalidSpec.flag_stem_od invalidSpec.bushing_od)) ∧
    ∃ e, build_part (fun _ _ => 0) invalidSpec = Except.error e := by
  refine ⟨?_, ?_, ?_⟩
  · exact (C3_post_init specW).1.2 (by decide)
  · exact ((C3_post_init invalidSpec).2.2 (by decide)).1
  · exact ((C3_post_init invalidSpec).2.2 (by decide)).2 (fun _ _ => 0)

/-- C2: the computed flag length is exactly `max_text_width + 2`, where
`max_text_width` is the maximum of the rendered widths of the two effective
label strings at `text_font_size`; hence it is at least `max_text_width + 2`
and is monotone in the maximal rendered width. -/
theorem C2_flag_length (tw tw2 : String → ℚ → ℚ) (s : BushingSpec) :
    flag_length_used tw s = max_text_width tw s + 2 ∧
    max_text_width tw s =
      max (tw (labelLayout s.text_top s.text_bottom).1 s.text_font_size)
        (tw (labelLayout s.text_top s.text_bottom).2 s.text_font_size) ∧
    max_text_width tw s + 2 ≤ flag_length_used tw s ∧
    (max_text_width tw s ≤ max_text_width tw2 s →
      flag_length_used tw s ≤ flag_length_used tw2 s) := by
  refine ⟨rfl, ?_, le_of_eq rfl, fun h => ?_⟩
  · simp [max_text_width, Text2D.bboxWidth, text_2d_top, text_2d_bottom,
      Text2D.make, Text2D.translate]
  · simpa [flag_length_used] using h

/-- A concrete rendered-width metric for witnesses: width equal to the
character count (independent of the font size). -/
def twLen : String → ℚ → ℚ := fun t _ => (t.length : ℚ)

/-- A second concrete metric, pointwise one unit wider than `twLen`. -/
def twLenPlus : String → ℚ → ℚ := fun t _ => ((t.length + 1 : ℕ) : ℚ)

/-- Witness for C2 at a concrete spec with two concrete width metrics. -/
theorem C2_flag_length_witness :
    flag_length_used twLen specW = max_text_width twLen specW + 2 ∧
    flag_length_used twLen specW ≤ flag_length_used twLenPlus specW := by
  refine ⟨(C2_flag_length twLen twLenPlus specW).1, ?_⟩
  exact (C2_flag_length twLen twLenPlus specW).2.2.2 (by decide)

/-- C4: `make_bushing` composes the part in the fixed order — sleeve, union
stem, union flag body, union the four text reliefs (top/front, bottom/front,
top/back, bottom/back), and last subtract the bore; the bore is a cylinder
with the same alignment tuple as the sleeve and no transform (hence
concentric with it), radius `bushing_id / 2` and height exactly
`bushing_length`. -/
theorem C4_composition_order (tw : String → ℚ → ℚ) (s : BushingSpec) :
    make_bushing tw s =
      Shape.diff
        (Shape.union
          (Shape.union
            (Shape.union
              (Shape.union
                (Shape.union
                  (Shape.union
                    (Shape.union Shape.empty (sleeve_solid s))
                    (stem_solid s))
                  (flag_body_box tw s))
                (Shape.extrudeTextXZ (text_sketch_top_front tw s) (relief_amount s)))
              (Shape.extrudeTextXZ (text_sketch_bottom_front tw s) (relief_amount s)))
            (Shape.rotate
              (Shape.extrudeTextXZ (text_sketch_top_back tw s) (relief_amount s))
              Axis.Z 180))
          (Shape.rotate
            (Shape.extrudeTextXZ (text_sketch_bottom_back tw s) (relief_amount s))
            Axis.Z 180))
        (Shape.cylinder (s.bushing_id / 2) s.bushing_length alignCCMin) ∧
    bore_solid s = Shape.cylinder (s.bushing_id / 2) s.bushing_length alignCCMin ∧
    sleeve_solid s = Shape.cylinder (s.bushing_od / 2) s.bushing_length alignCCMin :=
  ⟨rfl, rfl, rfl⟩

/-- C9: the solid built by `make_bushing` does not depend on the spec fields
`flag_stem_od`, `flag_length` (the nominal one) and `bushing_each_time`: two
valid specs that differ only there build identical solids — those fields are
never read by the geometry (only `flag_stem_od` is read, by `__post_init__`). -/
theorem C9_unused_fields (tw : String → ℚ → ℚ) (s : BushingSpec) (a b : ℚ) (c : ℤ)
    (_h1 : s.valid)
    (_h2 : BushingSpec.valid
      { s with flag_stem_od := a, flag_length := b, bushing_each_time := c }) :
    make_bushing tw
        { s with flag_stem_od := a, flag_length := b, bushing_each_time := c } =
      make_bushing tw s :=
  rfl

/-- Witness for C9: changing the three unused fields of `specW` leaves the
built solid unchanged. -/
theorem C9_unused_fields_witness :
    make_bushing twLen
        { specW with flag_stem_od := 5, flag_length := 99, bushing_each_time := 7 } =
      make_bushing twLen specW :=
  C9_unused_fields twLen specW 5 99 7 (by decide) (by decide)

/-- Elements of the `make_many_bushings` loop: the part at index `i` is a
pure function of `i` and the `i`-th spec alone, independent of every other
spec in the batch. -/
theorem make_many_loop_getElem (tw : String → ℚ → ℚ) (l : List BushingSpec)
    (j i : ℕ) :
    (make_many_loop tw j l)[i]? = (l[i]?).map (fun s => part_at tw (j + i) s) := by
  induction l generalizing j i with
  | nil => simp [make_many_loop]
  | cons s rest ih =>
    cases i with
    | zero => simp [make_many_loop, part_at]
    | succ i2 =>
      have h := ih (j + 1) i2
      simp only [make_many_loop, List.getElem?_cons_succ, h]
      have harith : j + 1 + i2 = j + (i2 + 1) := by omega
      rw [harith]

/-- C8: `make_bushing` is a deterministic pure function of its spec (equal
specs and equal width metrics give equal solids), and in the batch loop the
part at index `i` depends only on the `i`-th spec — no build reads state
from another build. -/
theorem C8_purity (tw : String → ℚ → ℚ) (s1 s2 : BushingSpec)
    (l : List BushingSpec) (i : ℕ) :
    (s1 = s2 → make_bushing tw s1 = make_bushing tw s2) ∧
    (make_many_bushings tw l)[i]? = (l[i]?).map (fun s => part_at tw i s) := by
  refine ⟨fun h => by rw [h], ?_⟩
  have h := make_many_loop_getElem tw l 0 i
  simpa [make_many_bushings] using h

/-- Witness for C8: building `specW` twice gives the same solid, and in a
two-spec batch the second part is `part_at` of the second spec alone. -/
theorem C8_purity_witness :
    make_bushing twLen specW = make_bushing twLen specW ∧
    (make_many_bushings twLen [specW, invalidSpec])[1]? =
      some (part_at twLen 1 invalidSpec) := by
  have h := C8_purity twLen specW specW [specW, invalidSpec] 1
  exact ⟨h.1 rfl, by simpa using h.2⟩

/-- Counterexample to C5: the claim puts the radius
`min(bushing_od / 2, bushing_length / 2)` at the stem's far (base) end, but
after the 90-degree rotation the base face sits on the sleeve axis and the
top face ends up radially far; at `specW` the far radius is
`flag_thickness / 2 = 1`, not `min(3, 10) = 3`. -/
theorem C5_stem_counterexample :
    stem_far_radius specW = 1 ∧
    min (specW.bushing_od / 2) (specW.bushing_length / 2) = 3 ∧
    stem_far_radius specW ≠ min (specW.bushing_od / 2) (specW.bushing_length / 2) := by
  have h1 : stem_far_radius specW = 1 := by
    norm_num [stem_far_radius, radial_sq, stem_base_center_world,
      stem_top_center_world, rotY90, cone_base_center_local,
      cone_top_center_local, stem_height, stem_translation, Vec3.add, specW]
  have h2 : min (specW.bushing_od / 2) (specW.bushing_length / 2) = 3 := by
    norm_num [specW]
  refine ⟨h1, h2, ?_⟩
  rw [h1, h2]
  norm_num

/-- C5 (amended): the stem is the cone with `top_radius = flag_thickness / 2`
and `bottom_radius = min(bushing_od / 2, bushing_length / 2)`, height
`flag_stem_length_radial + bushing_od / 2`, rotated 90 degrees about the Y
axis and translated along the sleeve axis to
`z = min(bushing_length / 2, flag_height / 2)`; its base (bottom-radius) end
is the NEAR end, on the sleeve axis, and its top (`flag_thickness / 2`) end
is the FAR end, whenever the cone height is positive. -/
theorem C5_stem_amended (s : BushingSpec) (h : 0 < stem_height s) :
    stem_solid s =
      Shape.translate
        (Shape.rotate
          (Shape.cone (s.flag_thickness / 2)
            (min (s.bushing_od / 2) (s.bushing_length / 2))
            (stem_height s) alignCCMin)
          Axis.Y 90)
        ⟨0, 0, min (s.bushing_length / 2) (s.flag_height / 2)⟩ ∧
    stem_base_center_world s =
      ⟨0, 0, min (s.bushing_length / 2) (s.flag_height / 2)⟩ ∧
    stem_top_center_world s =
      ⟨stem_height s, 0, min (s.bushing_length / 2) (s.flag_height / 2)⟩ ∧
    radial_sq (stem_base_center_world s) < radial_sq (stem_top_center_world s) ∧
    stem_far_radius s = s.flag_thickness / 2 ∧
    stem_near_radius s = min (s.bushing_od / 2) (s.bushing_length / 2) := by
  have hb : stem_base_center_world s =
      ⟨0, 0, min (s.bushing_length / 2) (s.flag_height / 2)⟩ := by
    simp [stem_base_center_world, rotY90, cone_base_center_local,
      stem_translation, Vec3.add]
  have ht : stem_top_center_world s =
      ⟨stem_height s, 0, min (s.bushing_length / 2) (s.flag_height / 2)⟩ := by
    simp [stem_top_center_world, rotY90, cone_top_center_local,
      stem_translation, Vec3.add]
  have hlt : radial_sq (stem_base_center_world s) <
      radial_sq (stem_top_center_world s) := by
    rw [hb, ht]
    simp only [radial_sq]
    have hp : (0 : ℚ) < stem_height s ^ 2 := pow_pos h 2
    nlinarith
  refine ⟨rfl, hb, ht, hlt, ?_, ?_⟩
  · rw [stem_far_radius, if_pos hlt]
  · rw [stem_near_radius, if_pos hlt]

/-- Witness for the amended C5 at `specW`, whose stem cone height is 7. -/
theorem C5_stem_amended_witness :
    stem_base_center_world specW = ⟨0, 0, 6⟩ ∧
    stem_top_center_world specW = ⟨7, 0, 6⟩ ∧
    stem_far_radius specW = specW.flag_thickness / 2 ∧
    stem_near_radius specW = min (specW.bushing_od / 2) (specW.bushing_length / 2) := by
  have h := C5_stem_amended specW (by norm_num [stem_height, specW])
  refine ⟨?_, ?_, h.2.2.2.2.1, h.2.2.2.2.2⟩
  · rw [h.2.1]
    norm_num [specW]
  · rw [h.2.2.1]
    norm_num [specW, stem_height]

/-- Counterexample to C6: the two text outlines are each offset 0.6 units
from the flag's mid-height seam, so the vertical gap between them is 1.2
units, not the claimed 0.6: at `specW` the top outline's lower edge minus the
bottom outline's upper edge is `6/5 ≠ 3/5`. -/
theorem C6_text_gap_counterexample :
    Text2D.yLo twLen (text_sketch_top_front twLen specW) -
        Text2D.yHi twLen (text_sketch_bottom_front twLen specW) = 6 / 5 ∧
    (6 / 5 : ℚ) ≠ 3 / 5 := by
  constructor
  · norm_num [Text2D.yLo, Text2D.yHi, alignLo, alignHi, text_sketch_top_front,
      text_sketch_bottom_front, text_2d_top, text_2d_bottom, Text2D.make,
      Text2D.translate, flag_body_center_z, alignCenter, specW]
  · norm_num

/-- C6 (amended): for every spec and every rendered-height metric, the two
text outlines straddle the flag's mid-height `flag_height / 2` with the top
outline bottom-aligned (its lower edge 0.6 above the seam, extending upward)
and the bottom outline top-aligned (its upper edge 0.6 below the seam,
extending downward), so the fixed vertical gap between them is 1.2 units —
each outline is offset 0.6 from the seam; the same holds on the back face. -/
theorem C6_text_layout_amended (tw th : String → ℚ → ℚ) (s : BushingSpec) :
    (text_2d_top s).alignY = Align.MIN ∧
    (text_2d_bottom s).alignY = Align.MAX ∧
    flag_body_center_z s = s.flag_height / 2 ∧
    Text2D.yLo th (text_sketch_top_front tw s) = flag_body_center_z s + 3 / 5 ∧
    Text2D.yHi th (text_sketch_bottom_front tw s) = flag_body_center_z s - 3 / 5 ∧
    Text2D.yLo th (text_sketch_top_front tw s) -
        Text2D.yHi th (text_sketch_bottom_front tw s) = 6 / 5 ∧
    Text2D.yLo th (text_sketch_top_back tw s) = flag_body_center_z s + 3 / 5 ∧
    Text2D.yHi th (text_sketch_bottom_back tw s) = flag_body_center_z s - 3 / 5 := by
  refine ⟨rfl, rfl, by simp [flag_body_center_z, alignCenter], ?_, ?_, ?_, ?_, ?_⟩ <;>
    · simp [Text2D.yLo, Text2D.yHi, alignLo, alignHi, text_sketch_top_front,
        text_sketch_bottom_front, text_sketch_top_back, text_sketch_bottom_back,
        text_2d_top, text_2d_bottom, Text2D.make, Text2D.translate,
        flag_body_center_z, alignCenter]
      ring

end Bushing
